import Mathlib

/-!
Verification development for the LinkedIn job-client repository
(`src/src/linkedin-api.py`, `src/src/linkedIn_bot_facade.py`,
`src/resume_yaml_generator.py`).

The Python code is shallowly embedded: pure string manipulation becomes
Lean string functions, the pagination `while` loop becomes a fuel-indexed
recursion, Python exceptions become `Except`, and the effectful `main`
of the resume tool becomes an event trace.  Machine integers are modelled
as `Int`/`Nat` (Python integers are unbounded, so no wraparound is needed).
-/

namespace LinkedInAuto

/-- A single-quote character, used when rendering Python `str` literals. -/
def squote : String := String.singleton (Char.ofNat 39)

/-- A double-quote character (Python `'"'`). -/
def dquote : String := String.singleton (Char.ofNat 34)

/-- `List.isPrefixOf`-based matcher used by `replaceAux`. -/
def isPrefixL (pat s : List Char) : Bool := List.isPrefixOf pat s

/-- One left-to-right pass of Python `str.replace` over the character list,
fuelled by the length of the remaining input (each step consumes at least
one character, so fuel `s.length` suffices).  Models the semantics for a
non-empty pattern, which is the only way the source calls it. -/
def replaceAux (pat rep : List Char) : Nat → List Char → List Char
  | _, [] => []
  | 0, s => s
  | Nat.succ fuel, c :: cs =>
    if isPrefixL pat (c :: cs) then
      rep ++ replaceAux pat rep fuel (List.drop (pat.length - 1) cs)
    else
      c :: replaceAux pat rep fuel cs

/-- Python `s.replace(pat, rep)` for a non-empty `pat`. -/
def strReplace (s pat rep : String) : String :=
  String.mk (replaceAux pat.data rep.data s.data.length s.data)

/-- Python `needle in hay` on strings (substring containment). -/
def containsSubAux (pat : List Char) : List Char → Bool
  | [] => pat.isEmpty
  | c :: cs => isPrefixL pat (c :: cs) || containsSubAux pat cs

/-- Python `needle in hay` on strings. -/
def containsSub (hay needle : String) : Bool := containsSubAux needle.data hay.data

/-- Python `str.capitalize`: first character uppercased, the rest lowercased. -/
def pyCapitalize (s : String) : String :=
  match s.data with
  | [] => ""
  | c :: cs => String.mk (c.toUpper :: cs.map Char.toLower)

/-! ## Query builder of `LinkedInEvolvedAPI.search_jobs`
(`src/src/linkedin-api.py`, lines 68-105).

The Python builds a `dict` (insertion-ordered), takes `str(query)`, and then
applies the replacement chain
`.replace(" ", "").replace("'", "").replace("KEYWORD_PLACEHOLDER", keywords or "")
 .replace("LOCATION_PLACEHOLDER", location_name or "").replace("{", "(").replace("}", ")")`.
-/

/-- The filter arguments of `search_jobs` that feed the query string
(`limit`/`offset` only affect pagination, not the encoded query). -/
structure SearchFilters where
  keywords : Option String := none
  companies : Option (List String) := none
  experience : Option (List String) := none
  job_type : Option (List String) := none
  job_title : Option (List String) := none
  industries : Option (List String) := none
  location_name : Option String := none
  remote : Option (List String) := none
  listed_at : Nat := 86400
  distance : Option Nat := none
  easy_apply : Option Bool := some true

/-- Python truthiness of an optional string (`if keywords:`). -/
def truthyStr : Option String → Bool
  | none => false
  | some s => !s.isEmpty

/-- Python truthiness of an optional list (`if companies:`). -/
def truthyList : Option (List String) → Bool
  | none => false
  | some l => !l.isEmpty

/-- Python truthiness of an optional integer (`if distance:`; `0` is falsy). -/
def truthyNat : Option Nat → Bool
  | none => false
  | some n => n != 0

/-- Python truthiness of an optional boolean (`if easy_apply:`). -/
def truthyBool : Option Bool → Bool
  | none => false
  | some b => b

/-- Python `",".join(xs)`. -/
def joinComma (xs : List String) : String := String.intercalate "," xs

/-- The `query["selectedFilters"]` sub-dictionary, in the source's insertion
order (company, experience, jobType, title, industry, distance,
workplaceType, applyWithLinkedin, then always timePostedRange). -/
def selectedFiltersEntries (f : SearchFilters) : List (String × String) :=
  (if truthyList f.companies then
      [("company", "List(" ++ joinComma (f.companies.getD []) ++ ")")] else [])
  ++ (if truthyList f.experience then
      [("experience", "List(" ++ joinComma (f.experience.getD []) ++ ")")] else [])
  ++ (if truthyList f.job_type then
      [("jobType", "List(" ++ joinComma (f.job_type.getD []) ++ ")")] else [])
  ++ (if truthyList f.job_title then
      [("title", "List(" ++ joinComma (f.job_title.getD []) ++ ")")] else [])
  ++ (if truthyList f.industries then
      [("industry", "List(" ++ joinComma (f.industries.getD []) ++ ")")] else [])
  ++ (if truthyNat f.distance then
      [("distance", "List(" ++ toString (f.distance.getD 0) ++ ")")] else [])
  ++ (if truthyList f.remote then
      [("workplaceType", "List(" ++ joinComma (f.remote.getD []) ++ ")")] else [])
  ++ (if truthyBool f.easy_apply then
      [("applyWithLinkedin", "List(true)")] else [])
  ++ [("timePostedRange", "List(r" ++ toString f.listed_at ++ ")")]

/-- A value of the top-level `query` dict: a string or the nested
`selectedFilters` dict of strings. -/
inductive QueryVal where
  | s (v : String)
  | d (entries : List (String × String))

/-- The top-level `query` dict, in the source's insertion order. -/
def topLevelEntries (f : SearchFilters) : List (String × QueryVal) :=
  [("origin", QueryVal.s "JOB_SEARCH_PAGE_QUERY_EXPANSION")]
  ++ (if truthyStr f.keywords then [("keywords", QueryVal.s "KEYWORD_PLACEHOLDER")] else [])
  ++ (if truthyStr f.location_name then
      [("locationFallback", QueryVal.s "LOCATION_PLACEHOLDER")] else [])
  ++ [("selectedFilters", QueryVal.d (selectedFiltersEntries f))]
  ++ [("spellCorrectionEnabled", QueryVal.s "true")]

/-- Python `repr` of a string without special characters: wrap in single
quotes.  (All keys and values the source puts in the dict contain no quote
or escape characters before substitution.) -/
def quoteRepr (s : String) : String := squote ++ s ++ squote

/-- Python `str` of the nested string-valued dict. -/
def innerDictRepr (entries : List (String × String)) : String :=
  "\x7b" ++
    String.intercalate ", " (entries.map fun kv => quoteRepr kv.1 ++ ": " ++ quoteRepr kv.2)
  ++ "\x7d"

/-- Python `str` of one top-level dict entry. -/
def entryRepr : String × QueryVal → String
  | (k, QueryVal.s v) => quoteRepr k ++ ": " ++ quoteRepr v
  | (k, QueryVal.d entries) => quoteRepr k ++ ": " ++ innerDictRepr entries

/-- Python `str(query)` for the top-level dict. -/
def topDictRepr (entries : List (String × QueryVal)) : String :=
  "\x7b" ++ String.intercalate ", " (entries.map entryRepr) ++ "\x7d"

/-- The `query_string` computed by `search_jobs` (lines 97-105): `str(query)`
with spaces stripped, quotes stripped, the keyword/location placeholders
substituted (note: substitution happens after space-stripping), and braces
turned into parentheses. -/
def search_jobs_query_string (f : SearchFilters) : String :=
  strReplace (strReplace (strReplace (strReplace (strReplace (strReplace
    (topDictRepr (topLevelEntries f))
    " " "") squote "") "KEYWORD_PLACEHOLDER" (f.keywords.getD ""))
    "LOCATION_PLACEHOLDER" (f.location_name.getD "")) "\x7b" "(") "\x7d" ")"

/-- All optional filters of `search_jobs` are absent (Python-falsy). -/
def noOptionalFilters (f : SearchFilters) : Prop :=
  truthyStr f.keywords = false ∧ truthyList f.companies = false ∧
  truthyList f.experience = false ∧ truthyList f.job_type = false ∧
  truthyList f.job_title = false ∧ truthyList f.industries = false ∧
  truthyStr f.location_name = false ∧ truthyList f.remote = false ∧
  truthyNat f.distance = false ∧ truthyBool f.easy_apply = false

/-! ## Pagination loop of `search_jobs`
(`src/src/linkedin-api.py`, lines 106-145).

The remote endpoint is a parameter `server : Int → Int → List JobElement`
mapping the `count` and `start` request parameters to the `included` array
of the page.  The unbounded `while True` loop becomes a fuel-indexed
recursion; running out of fuel is reported as a distinct outcome so it is
never confused with normal termination or with a `ZeroDivisionError`.
The platform constants `Linkedin._MAX_SEARCH_COUNT` and
`Linkedin._MAX_REPEATED_REQUESTS` live in the external `linkedin_api`
library, so they are parameters (`maxCount`, `maxRepeated`) here. -/

/-- One entry of a response's `included` array, keeping the attributes the
loop reads: the `trackingUrn`, the `$type` tag, and the `job_id` attribute
the loop may write. -/
structure JobElement where
  trackingUrn : Option String := none
  dollarType : String := ""
  job_id : Option String := none
deriving DecidableEq

/-- The `$type` tag marking a job posting. -/
def jobPostingType : String := "com.linkedin.voyager.dash.jobs.JobPosting"

/-- Per-element processing of the loop body: if `trackingUrn` is present,
set `job_id` to its last `:`-separated segment (`trackingUrn.split(":")[-1]`). -/
def processElement (e : JobElement) : JobElement :=
  match e.trackingUrn with
  | some urn => { e with job_id := some ((urn.splitOn ":").getLastD "") }
  | none => e

/-- The `new_data` list of one page: processed elements whose `$type` marks
them as a job posting, in arrival order. -/
def extractNewData (elements : List JobElement) : List JobElement :=
  (elements.map processElement).filter (fun e => e.dollarType == jobPostingType)

/-- Exact-rational model of the Python float comparison
`len(results)/count >= maxRepeated` for `count ≠ 0`. -/
def ratioGE (len : Nat) (count maxRepeated : Int) : Bool :=
  if 0 < count then maxRepeated * count ≤ (len : Int)
  else (len : Int) ≤ maxRepeated * count

/-- Outcome of the pagination loop: normal return with the accumulated
results and the `(count, start)` request trace, a `ZeroDivisionError`
raised by `len(results)/count`, or fuel exhaustion (the modelled loop ran
longer than the given fuel). -/
inductive LoopResult where
  | done (results : List JobElement) (requests : List (Int × Int))
  | zeroDivisionError (requests : List (Int × Int))
  | outOfFuel

/-- The `while True` loop of `search_jobs` (lines 107-143).  `results` and
`reqs` accumulate across iterations; `count` persists and is shrunk to
`limit - len(results)` when `limit > -1` and that remainder is below the
current `count`.  The stop check mirrors Python's short-circuit
`(-1 < limit <= len(results)) or len(results)/count >= maxRepeated
 or len(elements) == 0`: the division (and hence the possible
`ZeroDivisionError`) is reached only when the first disjunct is false. -/
def searchLoop (server : Int → Int → List JobElement) (maxRepeated limit offset : Int) :
    Nat → Int → List JobElement → List (Int × Int) → LoopResult
  | 0, _, _, _ => LoopResult.outOfFuel
  | Nat.succ fuel, count, results, reqs =>
    let count := if limit > -1 ∧ limit - (results.length : Int) < count then
        limit - (results.length : Int) else count
    let start := (results.length : Int) + offset
    let elements := server count start
    let reqs := reqs ++ [(count, start)]
    let nd := extractNewData elements
    if nd.isEmpty then LoopResult.done results reqs
    else
      let results := results ++ nd
      if -1 < limit ∧ limit ≤ (results.length : Int) then LoopResult.done results reqs
      else if count = 0 then LoopResult.zeroDivisionError reqs
      else if ratioGE results.length count maxRepeated || elements.isEmpty then
        LoopResult.done results reqs
      else searchLoop server maxRepeated limit offset fuel count results reqs

/-- `search_jobs` from the first page request on: the initial `count` is the
platform maximum and the accumulators start empty. -/
def search_jobs (server : Int → Int → List JobElement)
    (maxCount maxRepeated limit offset : Int) (fuel : Nat) : LoopResult :=
  searchLoop server maxRepeated limit offset fuel maxCount [] []

/-- Whether the loop outcome is a raised `ZeroDivisionError`. -/
def isZeroDiv : LoopResult → Bool
  | LoopResult.zeroDivisionError _ => true
  | _ => false

/-! ## `get_fields_for_easy_apply`
(`src/src/linkedin-api.py`, lines 147-230).

The parsed response body is a dynamic JSON value; every Python operation on
it (`[]`-subscript, `.get`, `in`, `.keys()`, iteration) is modelled with its
exact dynamic-typing failure mode, so raised exceptions are the `.error`
branch of `Except`. -/

/-- A Python value as produced by `res.json()`. -/
inductive JVal where
  | jnull
  | jbool (b : Bool)
  | jnum (n : Int)
  | jstr (s : String)
  | jarr (items : List JVal)
  | jobj (fields : List (String × JVal))

/-- Python exceptions the embedded code can raise. -/
inductive PyErr where
  | keyError (k : String)
  | typeError
  | attributeError
  | indexError
deriving DecidableEq

/-- First-match association-list lookup (Python dict keys are unique; a
first-match lookup agrees with dict lookup on every dict the code builds). -/
def lookupKey (fields : List (String × JVal)) (k : String) : Option JVal :=
  match fields with
  | [] => none
  | kv :: rest => if kv.1 = k then some kv.2 else lookupKey rest k

/-- Python `x[key]` with a string key: dict lookup (KeyError when absent);
on any non-dict — including `None` — a TypeError. -/
def JVal.getItem : JVal → String → Except PyErr JVal
  | JVal.jobj fields, k =>
    match lookupKey fields k with
    | some v => Except.ok v
    | none => Except.error (PyErr.keyError k)
  | _, _ => Except.error PyErr.typeError

/-- Python `x.get(key, default)`: only dicts have `.get`
(AttributeError otherwise). -/
def JVal.dictGet : JVal → String → JVal → Except PyErr JVal
  | JVal.jobj fields, k, dflt => Except.ok ((lookupKey fields k).getD dflt)
  | _, _, _ => Except.error PyErr.attributeError

/-- Equality with a Python string (used by `in` on lists). -/
def isStrEq (k : String) : JVal → Bool
  | JVal.jstr s => s = k
  | _ => false

/-- Python `key in x` for a string key: dict-key membership, substring test
on strings, element equality on lists; TypeError on non-containers. -/
def JVal.containsKey : JVal → String → Except PyErr Bool
  | JVal.jobj fields, k => Except.ok (lookupKey fields k).isSome
  | JVal.jstr s, k => Except.ok (containsSub s k)
  | JVal.jarr items, k => Except.ok (items.any (isStrEq k))
  | _, _ => Except.error PyErr.typeError

/-- Python `list(x.keys())`: only dicts have `.keys()`. -/
def JVal.keysList : JVal → Except PyErr (List String)
  | JVal.jobj fields => Except.ok (fields.map Prod.fst)
  | _ => Except.error PyErr.attributeError

/-- Python `for v in x`: lists yield items, strings yield one-character
strings, dicts yield their keys; TypeError otherwise. -/
def JVal.pyIter : JVal → Except PyErr (List JVal)
  | JVal.jarr items => Except.ok items
  | JVal.jstr s => Except.ok (s.data.map fun c => JVal.jstr (String.singleton c))
  | JVal.jobj fields => Except.ok (fields.map fun kv => JVal.jstr kv.1)
  | _ => Except.error PyErr.typeError

/-- One `component_info` dict appended by the extraction loop. -/
structure ComponentInfo where
  title : JVal
  urn : JVal
  formComponentType : String
  selectableOptions : Option (List JVal)

/-- A Python list comprehension `[f(x) for x in xs]` over fallible `f`:
produces the images in order, propagating the first exception. -/
def listComp (f : JVal → Except PyErr JVal) : List JVal → Except PyErr (List JVal)
  | [] => Except.ok []
  | x :: xs => do
    let v ← f x
    let vs ← listComp f xs
    pure (v :: vs)

/-- `opt["optionText"]["text"]` (the `textSelectableOptions` comprehension). -/
def optionTextDirect (opt : JVal) : Except PyErr JVal :=
  opt.getItem "optionText" >>= fun o => o.getItem "text"

/-- `opt["textSelectableOption"]["optionText"]["text"]` (the
`selectableOptions` comprehension). -/
def optionTextWrapped (opt : JVal) : Except PyErr JVal :=
  opt.getItem "textSelectableOption" >>= fun o =>
    o.getItem "optionText" >>= fun p => p.getItem "text"

/-- The loop body of the extractor for one element of `included`
(lines 200-228): `none` when the element carries no `formComponent` marker,
`some info` when a `component_info` is appended, `.error` when the Python
would raise.  The `try/except TypeError` around
`item["title"]["text"]` catches only TypeError; a KeyError (e.g. no
`"title"` key, or a `title` dict without `"text"`) propagates. -/
def processItem (item : JVal) : Except PyErr (Option ComponentInfo) := do
  let hasFC ← item.containsKey "formComponent"
  if hasFC then
    let urn ← item.getItem "urn"
    let title ←
      match item.getItem "title" >>= fun t => t.getItem "text" with
      | Except.ok t => Except.ok t
      | Except.error PyErr.typeError => Except.ok urn
      | Except.error e => Except.error e
    let fc ← item.getItem "formComponent"
    let keys ← fc.keysList
    let fctype ←
      match keys with
      | [] => Except.error PyErr.indexError
      | k :: _ => Except.ok k
    let details ← fc.getItem fctype
    let hasDirect ← details.containsKey "textSelectableOptions"
    if hasDirect then
      let arr ← details.getItem "textSelectableOptions"
      let opts ← arr.pyIter
      let texts ← listComp optionTextDirect opts
      pure (some ⟨title, urn, fctype, some texts⟩)
    else
      let hasWrapped ← details.containsKey "selectableOptions"
      if hasWrapped then
        let arr ← details.getItem "selectableOptions"
        let opts ← arr.pyIter
        let texts ← listComp optionTextWrapped opts
        pure (some ⟨title, urn, fctype, some texts⟩)
      else
        pure (some ⟨title, urn, fctype, none⟩)
  else
    pure none

/-- The `for item in data.get("included", [])` loop: appends the produced
`component_info`s in order; an exception inside the loop propagates. -/
def collectComponents : List JVal → Except PyErr (List ComponentInfo)
  | [] => Except.ok []
  | item :: rest => do
    let c ← processItem item
    let cs ← collectComponents rest
    match c with
    | some info => pure (info :: cs)
    | none => pure cs

/-- The HTTP response seen by `get_fields_for_easy_apply`: the status code
and the parsed body (`none` models a body on which `res.json()` raises
`ValueError`). -/
structure FetchResponse where
  status_code : Nat
  body : Option JVal

/-- Log line of the 409 branch. -/
def logAlreadyApplied : String :=
  "Failed to fetch fields for easy apply job because already applied to this job!"

/-- Log line of the generic non-200/409 branch. -/
def logGenericFailure : String := "Failed to fetch fields for easy apply job"

/-- Log line of the JSON-parse failure branch. -/
def logParseFailure : String := "Failed to parse JSON response"

/-- Value and log lines produced by a non-raising run of
`get_fields_for_easy_apply`. -/
structure EasyApplyOutcome where
  fields : List ComponentInfo
  logs : List String

/-- `get_fields_for_easy_apply` (lines 147-230), as a function of the
session cookies and the response of the single `_fetch`.  Before the fetch
the code computes `cookies["JSESSIONID"].replace('"', "")`, which raises
KeyError when the cookie is absent.  The status `match` returns early on
409 and on any other non-200 status; a 200 status proceeds to
`res.json()`, whose `ValueError` is caught and logged; then the `included`
array is folded by `collectComponents`. -/
def get_fields_for_easy_apply (cookies : List (String × String))
    (res : FetchResponse) : Except PyErr EasyApplyOutcome :=
  match cookies.lookup "JSESSIONID" with
  | none => Except.error (PyErr.keyError "JSESSIONID")
  | some v =>
    let _csrf := strReplace v dquote ""
    if res.status_code = 200 then
      match res.body with
      | none => Except.ok ⟨[], [logParseFailure]⟩
      | some data => do
        let included ← data.dictGet "included" (JVal.jarr [])
        let items ← included.pyIter
        let fields ← collectComponents items
        pure ⟨fields, []⟩
    else if res.status_code = 409 then
      Except.ok ⟨[], [logAlreadyApplied]⟩
    else
      Except.ok ⟨[], [logGenericFailure]⟩

/-! ## `LinkedInBotState` / `LinkedInBotFacade`
(`src/src/linkedIn_bot_facade.py`). -/

/-- The six boolean flags of `LinkedInBotState` (all `False` after
`reset`). -/
structure LinkedInBotState where
  credentials_set : Bool := false
  api_key_set : Bool := false
  job_application_profile_set : Bool := false
  gpt_answerer_set : Bool := false
  parameters_set : Bool := false
  logged_in : Bool := false
deriving DecidableEq

/-- The state produced by `LinkedInBotState.__init__` / `reset`. -/
def LinkedInBotState.reset : LinkedInBotState := {}

/-- Python `getattr(self, key)` on the state object: `none` models the
AttributeError for an unknown attribute name (never hit by the source's
calls, which pass only the six flag names). -/
def getattrFlag (st : LinkedInBotState) : String → Option Bool
  | "credentials_set" => some st.credentials_set
  | "api_key_set" => some st.api_key_set
  | "job_application_profile_set" => some st.job_application_profile_set
  | "gpt_answerer_set" => some st.gpt_answerer_set
  | "parameters_set" => some st.parameters_set
  | "logged_in" => some st.logged_in
  | _ => none

/-- The `ValueError` message raised for an unmet `key`:
`f"{key.replace('_', ' ').capitalize()} must be set before proceeding."`. -/
def validateErrorMessage (key : String) : String :=
  pyCapitalize (strReplace key "_" " ") ++ " must be set before proceeding."

/-- `LinkedInBotState.validate_state` (lines 15-18): raises a `ValueError`
with `validateErrorMessage key` at the first falsy key, in list order. -/
def validate_state (st : LinkedInBotState) : List String → Except String Unit
  | [] => Except.ok ()
  | key :: rest =>
    match getattrFlag st key with
    | none => Except.error ("AttributeError: " ++ key)
    | some b => if b then validate_state st rest else Except.error (validateErrorMessage key)

/-- `LinkedInBotFacade.start_apply` (lines 65-67): validates
`["logged_in", "job_application_profile_set", "gpt_answerer_set",
"parameters_set"]` and only then calls `start_applying` on the apply
component.  The returned pair is the (unchanged) facade state together with
a flag recording that `start_applying` was invoked; an `.error` outcome
means the `ValueError` escaped before that call, with the facade state
untouched. -/
def start_apply (st : LinkedInBotState) : Except String (LinkedInBotState × Bool) :=
  match validate_state st
      ["logged_in", "job_application_profile_set", "gpt_answerer_set", "parameters_set"] with
  | Except.error e => Except.error e
  | Except.ok () => Except.ok (st, true)

/-! ## Class-level applied-jobs list
(`src/src/linkedin-api.py`, lines 10-11 and 332-333).

`already_applied_jobs` is declared at class scope, so every instance's
attribute lookup resolves to the one class-level list; `set_job_as_applied`
calls `.append` on it, mutating the shared list. The class-level list is
passed explicitly as `cls`; an instance carries only its constructor
arguments. -/

/-- An instance of `LinkedInEvolvedAPI`: only the constructor arguments are
instance-owned. -/
structure LinkedInEvolvedAPI where
  username : String
  password : String

/-- Reading `inst.already_applied_jobs`: the lookup falls through to the
class attribute, so the result does not depend on the instance. -/
def already_applied_jobs (_inst : LinkedInEvolvedAPI) (cls : List String) : List String :=
  cls

/-- `set_job_as_applied` (lines 332-333):
`self.already_applied_jobs.append(job_id)`, i.e. the class-level list grows
by `job_id` at the end, whichever instance performed the call. -/
def set_job_as_applied (_inst : LinkedInEvolvedAPI) (cls : List String)
    (job_id : String) : List String :=
  cls ++ [job_id]

/-! ## `main` of the resume tool (`src/resume_yaml_generator.py`,
lines 138-159).

The effectful statements of the happy path become an event trace, keeping
the statement order of the source: read the resume text, call the language
model (`generate_yaml_from_resume`), write the result
(`save_yaml(generated_yaml, args.output)`), then validate it
(`validate_yaml(generated_yaml, schema)`). -/

/-- The observable steps of `main`'s try block. -/
inductive ResumeEvent where
  | read_input (path : String)
  | llm_request (resume_text : String)
  | write_output (path yamlText : String)
  | validate (yamlText : String) (valid : Bool)
deriving DecidableEq

/-- The happy-path trace of `main`, parameterised over the file reader, the
language-model call and the schema validator (all opaque external
services).  The order of the four events is the statement order of
lines 143-159 of the source. -/
def resume_main_trace (input output : String) (readFile : String → String)
    (llm : String → String) (validator : String → Bool) : List ResumeEvent :=
  let resume_text := readFile input
  let generated_yaml := llm resume_text
  [ResumeEvent.read_input input,
   ResumeEvent.llm_request resume_text,
   ResumeEvent.write_output output generated_yaml,
   ResumeEvent.validate generated_yaml (validator generated_yaml)]

/-- Index of the first event satisfying `p` in a trace (length if none). -/
def eventIdx (p : ResumeEvent → Bool) : List ResumeEvent → Nat
  | [] => 0
  | e :: rest => if p e then 0 else eventIdx p rest + 1

/-- Whether the event is the disk write. -/
def isWriteEvent : ResumeEvent → Bool
  | ResumeEvent.write_output _ _ => true
  | _ => false

/-- Whether the event is the schema validation. -/
def isValidateEvent : ResumeEvent → Bool
  | ResumeEvent.validate _ _ => true
  | _ => false

/-! ## Theorems -/

/-- The filters of the spec's multi-valued-encoding example. -/
def companiesFilters : SearchFilters := { companies := some ["a", "b"] }

/-- The filters of the spec's end-to-end scenario. -/
def scenarioFilters : SearchFilters :=
  { keywords := some "Frontend Developer", location_name := some "Italia",
    easy_apply := some true }

set_option maxRecDepth 8000 in
/-- C1: the claim is false on the code.  Python's `str(dict)` renders
entries as `key: value`, so after the replacement chain the query string
contains `company:List(a,b)` — never `company=List(a,b)` (the string
contains no `=` at all).  Moreover the `KEYWORD_PLACEHOLDER` substitution
happens after `.replace(" ", "")`, so the space of
`keywords="Frontend Developer"` survives into the output, refuting
`keywords=FrontendDeveloper` and "no space characters anywhere". -/
theorem search_jobs_query_eq_encoding_refuted :
    containsSub (search_jobs_query_string companiesFilters) "company=List(a,b)" = false
    ∧ containsSub (search_jobs_query_string scenarioFilters) "keywords=FrontendDeveloper" = false
    ∧ containsSub (search_jobs_query_string scenarioFilters) " " = true := by
  refine ⟨?_, ?_, ?_⟩ <;> decide

set_option maxRecDepth 8000 in
/-- C1 (amended): present multi-valued filters are rendered as
`key:List(...)` substrings; the end-to-end scenario's query string contains
`keywords:Frontend Developer` (the keyword's space survives),
`locationFallback:Italia` and `applyWithLinkedin:List(true)`; space
characters occur only inside substituted keyword/location values, so the
companies-only query string contains none. -/
theorem search_jobs_query_colon_encoding :
    containsSub (search_jobs_query_string companiesFilters) "company:List(a,b)" = true
    ∧ containsSub (search_jobs_query_string companiesFilters) " " = false
    ∧ containsSub (search_jobs_query_string scenarioFilters) "keywords:Frontend Developer" = true
    ∧ containsSub (search_jobs_query_string scenarioFilters) "locationFallback:Italia" = true
    ∧ containsSub (search_jobs_query_string scenarioFilters) "applyWithLinkedin:List(true)" = true := by
  refine ⟨?_, ?_, ?_, ?_, ?_⟩ <;> decide

/-- C5: the query-string construction is a pure function of the filter
arguments — equal filter values give equal strings — and when every
optional filter is absent the `selectedFilters` map holds exactly the
recency-window key. -/
theorem search_jobs_query_deterministic (f g : SearchFilters) (hfg : f = g) :
    search_jobs_query_string f = search_jobs_query_string g
    ∧ (noOptionalFilters f →
        selectedFiltersEntries f
          = [("timePostedRange", "List(r" ++ toString f.listed_at ++ ")")]) := by
  subst hfg
  refine ⟨rfl, ?_⟩
  rintro ⟨-, h2, h3, h4, h5, h6, -, h8, h9, h10⟩
  simp [selectedFiltersEntries, h2, h3, h4, h5, h6, h8, h9, h10]

/-- Witness for C5 at the all-absent filter value. -/
theorem search_jobs_query_deterministic_witness :
    search_jobs_query_string { easy_apply := none }
        = search_jobs_query_string { easy_apply := none }
    ∧ (noOptionalFilters { easy_apply := none } →
        selectedFiltersEntries { easy_apply := none }
          = [("timePostedRange", "List(r" ++ toString (86400 : Nat) ++ ")")]) :=
  search_jobs_query_deterministic { easy_apply := none } { easy_apply := none } rfl

/-- The C6 trace at concrete inputs. -/
def c6Trace : List ResumeEvent :=
  resume_main_trace "resume.txt" "out.yaml" (fun _ => "RESUME TEXT")
    (fun s => s ++ ": yaml") (fun _ => true)

/-- C6: the claim is false on the code.  In `main` the generated YAML is
written to disk (`save_yaml`, line 150) before it is validated
(`validate_yaml`, line 154), so validation does not happen before saving. -/
theorem resume_validation_before_save_refuted :
    ¬ eventIdx isValidateEvent c6Trace < eventIdx isWriteEvent c6Trace := by
  decide

/-- C6 (amended): in the resume tool's main flow the resume text is read,
the language model is asked for YAML, the result is written to disk, and
only then is it validated against the schema — the write (index 2 of the
trace) strictly precedes the validation (index 3). -/
theorem resume_save_before_validation (input output : String)
    (readFile llm : String → String) (validator : String → Bool) :
    eventIdx isWriteEvent (resume_main_trace input output readFile llm validator) = 2
    ∧ eventIdx isValidateEvent (resume_main_trace input output readFile llm validator) = 3 := by
  constructor <;> rfl

/-- C8: `start_apply` on any facade state with `logged_in = False` raises a
`ValueError` whose message is exactly
"Logged in must be set before proceeding." — `logged_in` is the first key
`validate_state` checks, so the raise happens before `start_applying`
would be invoked (the `.error` outcome carries no invocation flag and no
changed state). -/
theorem start_apply_requires_login (st : LinkedInBotState) (h : st.logged_in = false) :
    start_apply st = Except.error "Logged in must be set before proceeding." := by
  unfold start_apply validate_state
  simp only [getattrFlag, h, if_false, Bool.false_eq_true]
  rfl

/-- Witness for C8 at the freshly constructed state. -/
theorem start_apply_requires_login_witness :
    start_apply LinkedInBotState.reset
      = Except.error "Logged in must be set before proceeding." :=
  start_apply_requires_login LinkedInBotState.reset rfl

/-- C9: the applied-jobs list lives at class level, so an append performed
through any instance is read back identically through every other
instance; `set_job_as_applied` appends `job_id` at the end, preserving
every previously stored identifier in its original position and growing
the length by exactly one; appends never deduplicate, so applying the same
identifier twice stores it twice. -/
theorem set_job_as_applied_shared_append (cls : List String)
    (a b : LinkedInEvolvedAPI) (j : String) :
    set_job_as_applied a cls j = cls ++ [j]
    ∧ already_applied_jobs b (set_job_as_applied a cls j)
        = already_applied_jobs a (set_job_as_applied a cls j)
    ∧ (set_job_as_applied a cls j).take cls.length = cls
    ∧ (set_job_as_applied a cls j).getLast? = some j
    ∧ (set_job_as_applied a cls j).length = cls.length + 1
    ∧ set_job_as_applied b (set_job_as_applied a cls j) j = cls ++ [j] ++ [j] := by
  refine ⟨rfl, rfl, ?_, ?_, ?_, rfl⟩
  · simp [set_job_as_applied, List.take_left]
  · simp [set_job_as_applied]
  · simp [set_job_as_applied]

/-- C4: the status mapping of `get_fields_for_easy_apply` — 409 returns the
empty list with the "already applied" log line, any other non-200 status
returns the empty list with the generic-failure log line, a 200 status
proceeds to parsing (here observed through the parse-failure log line on a
non-JSON body), and the 409 log line differs from the generic one, so the
two runs are distinguishable by log output alone. -/
theorem get_fields_status_mapping (cookies : List (String × String)) (v : String)
    (hc : cookies.lookup "JSESSIONID" = some v) (body : Option JVal) (status : Nat)
    (h200 : status ≠ 200) (h409 : status ≠ 409) :
    get_fields_for_easy_apply cookies ⟨409, body⟩ = Except.ok ⟨[], [logAlreadyApplied]⟩
    ∧ get_fields_for_easy_apply cookies ⟨status, body⟩ = Except.ok ⟨[], [logGenericFailure]⟩
    ∧ get_fields_for_easy_apply cookies ⟨200, none⟩ = Except.ok ⟨[], [logParseFailure]⟩
    ∧ logAlreadyApplied ≠ logGenericFailure := by
  unfold get_fields_for_easy_apply
  rw [hc]
  refine ⟨rfl, ?_, rfl, by decide⟩
  simp only [if_neg h200, if_neg h409]

/-- Witness for C4 with a present session cookie and status 500. -/
theorem get_fields_status_mapping_witness :
    get_fields_for_easy_apply [("JSESSIONID", "x")] ⟨409, none⟩
        = Except.ok ⟨[], [logAlreadyApplied]⟩
    ∧ get_fields_for_easy_apply [("JSESSIONID", "x")] ⟨500, none⟩
        = Except.ok ⟨[], [logGenericFailure]⟩
    ∧ get_fields_for_easy_apply [("JSESSIONID", "x")] ⟨200, none⟩
        = Except.ok ⟨[], [logParseFailure]⟩
    ∧ logAlreadyApplied ≠ logGenericFailure :=
  get_fields_status_mapping [("JSESSIONID", "x")] "x" rfl none 500
    (by decide) (by decide)

/-- A `formComponent`-marked element with no `"urn"` key, as allowed by the
claim's "arbitrary shape" quantification. -/
def itemWithoutUrn : JVal :=
  JVal.jobj [("formComponent", JVal.jobj [("singleLineTextFormComponent", JVal.jnull)])]

/-- A 200-status JSON body whose only included element lacks `"urn"`. -/
def bodyWithoutUrn : JVal := JVal.jobj [("included", JVal.jarr [itemWithoutUrn])]

/-- C3: the claim is false on the code.  A 200-status JSON body whose
`formComponent` item lacks the `urn` key makes `item["urn"]` raise
`KeyError('urn')` (only `TypeError` is caught, and only around the title
access), and a session without the `JSESSIONID` cookie makes
`cookies["JSESSIONID"]` raise `KeyError('JSESSIONID')` before the status
is even examined — in both cases an exception escapes to the caller. -/
theorem get_fields_never_raises_refuted :
    get_fields_for_easy_apply [("JSESSIONID", "token")] ⟨200, some bodyWithoutUrn⟩
      = Except.error (PyErr.keyError "urn")
    ∧ get_fields_for_easy_apply [] ⟨200, some bodyWithoutUrn⟩
      = Except.error (PyErr.keyError "JSESSIONID") :=
  ⟨rfl, rfl⟩

/-- C3 (amended): with the `JSESSIONID` cookie present, every response with
a non-200 status yields `Except.ok` with an empty field list (no exception
reaches the caller), and a 200 status with a non-JSON body yields the
empty list with the parse-failure log line; only the parsing of a 200 JSON
body of unexpected shape can raise (e.g. a `formComponent` item missing
`urn`; see the counterexample). -/
theorem get_fields_nonraising_envelope (cookies : List (String × String)) (v : String)
    (hc : cookies.lookup "JSESSIONID" = some v) (res : FetchResponse) :
    (res.status_code ≠ 200 →
      ∃ logs, get_fields_for_easy_apply cookies res = Except.ok ⟨[], logs⟩)
    ∧ (res.status_code = 200 → res.body = none →
      get_fields_for_easy_apply cookies res = Except.ok ⟨[], [logParseFailure]⟩) := by
  obtain ⟨status, body⟩ := res
  unfold get_fields_for_easy_apply
  rw [hc]
  constructor
  · intro h200
    simp only [if_neg h200]
    by_cases h409 : status = 409
    · rw [if_pos h409]
      exact ⟨[logAlreadyApplied], rfl⟩
    · rw [if_neg h409]
      exact ⟨[logGenericFailure], rfl⟩
  · intro h200 hbody
    subst hbody
    simp only [if_pos h200]

/-- Witness for the amended C3 at a 404 response and a non-JSON 200 body. -/
theorem get_fields_nonraising_envelope_witness :
    (∃ logs, get_fields_for_easy_apply [("JSESSIONID", "x")] ⟨404, none⟩
        = Except.ok ⟨[], logs⟩)
    ∧ get_fields_for_easy_apply [("JSESSIONID", "x")] ⟨200, none⟩
        = Except.ok ⟨[], [logParseFailure]⟩ :=
  ⟨(get_fields_nonraising_envelope [("JSESSIONID", "x")] "x" rfl ⟨404, none⟩).1
      (by decide),
   (get_fields_nonraising_envelope [("JSESSIONID", "x")] "x" rfl ⟨200, none⟩).2
      rfl rfl⟩

/-- An option in the direct shape: `{"optionText": {"text": t}}`. -/
def mkOptionDirect (t : String) : JVal :=
  JVal.jobj [("optionText", JVal.jobj [("text", JVal.jstr t)])]

/-- An option in the wrapped shape:
`{"textSelectableOption": {"optionText": {"text": t}}}`. -/
def mkOptionWrapped (t : String) : JVal :=
  JVal.jobj [("textSelectableOption", mkOptionDirect t)]

/-- Component details exposing the options under `textSelectableOptions`. -/
def directOptionsComponent (ts : List String) : JVal :=
  JVal.jobj [("textSelectableOptions", JVal.jarr (ts.map mkOptionDirect))]

/-- Component details exposing the same option texts under
`selectableOptions`. -/
def wrappedOptionsComponent (ts : List String) : JVal :=
  JVal.jobj [("selectableOptions", JVal.jarr (ts.map mkOptionWrapped))]

/-- A well-formed `included` element wrapping the given component details. -/
def mkFormItem (u ttl : String) (details : JVal) : JVal :=
  JVal.jobj [("urn", JVal.jstr u), ("title", JVal.jobj [("text", JVal.jstr ttl)]),
    ("formComponent", JVal.jobj [("multipleChoiceFormComponent", details)])]

/-- The direct-shape comprehension flattens to the option texts in order. -/
theorem listComp_mkOptionDirect (ts : List String) :
    listComp optionTextDirect (ts.map mkOptionDirect) = Except.ok (ts.map JVal.jstr) := by
  induction ts with
  | nil => rfl
  | cons t rest ih =>
    have h : listComp optionTextDirect ((t :: rest).map mkOptionDirect)
        = listComp optionTextDirect (rest.map mkOptionDirect) >>= fun vs =>
            Except.ok (JVal.jstr t :: vs) := rfl
    rw [h, ih]
    rfl

/-- The wrapped-shape comprehension flattens to the same option texts. -/
theorem listComp_mkOptionWrapped (ts : List String) :
    listComp optionTextWrapped (ts.map mkOptionWrapped) = Except.ok (ts.map JVal.jstr) := by
  induction ts with
  | nil => rfl
  | cons t rest ih =>
    have h : listComp optionTextWrapped ((t :: rest).map mkOptionWrapped)
        = listComp optionTextWrapped (rest.map mkOptionWrapped) >>= fun vs =>
            Except.ok (JVal.jstr t :: vs) := rfl
    rw [h, ih]
    rfl

/-- C7: an element exposing its options under `textSelectableOptions` and
an element exposing the same underlying option texts under
`selectableOptions` produce the same `component_info` — in particular the
same flattened list of option-label strings, in the same order. -/
theorem option_shapes_equivalent (u ttl : String) (ts : List String) :
    processItem (mkFormItem u ttl (directOptionsComponent ts))
      = Except.ok (some ⟨JVal.jstr ttl, JVal.jstr u, "multipleChoiceFormComponent",
          some (ts.map JVal.jstr)⟩)
    ∧ processItem (mkFormItem u ttl (wrappedOptionsComponent ts))
      = Except.ok (some ⟨JVal.jstr ttl, JVal.jstr u, "multipleChoiceFormComponent",
          some (ts.map JVal.jstr)⟩) := by
  constructor
  · have h : processItem (mkFormItem u ttl (directOptionsComponent ts))
        = listComp optionTextDirect (ts.map mkOptionDirect) >>= fun texts =>
            Except.ok (some ⟨JVal.jstr ttl, JVal.jstr u,
              "multipleChoiceFormComponent", some texts⟩) := rfl
    rw [h, listComp_mkOptionDirect]
    rfl
  · have h : processItem (mkFormItem u ttl (wrappedOptionsComponent ts))
        = listComp optionTextWrapped (ts.map mkOptionWrapped) >>= fun texts =>
            Except.ok (some ⟨JVal.jstr ttl, JVal.jstr u,
              "multipleChoiceFormComponent", some texts⟩) := rfl
    rw [h, listComp_mkOptionWrapped]
    rfl

/-- A list with nonzero length is not `isEmpty`. -/
theorem isEmpty_false_of_length_ne {α : Type} (l : List α) (h : l.length ≠ 0) :
    l.isEmpty = false := by
  cases l with
  | nil => exact absurd rfl h
  | cons a rest => rfl

/-- Invariant proof behind C10: starting from a strictly positive `count`,
the loop never evaluates `len(results)/count` with `count = 0` — when
`limit ≥ 0` the shrunk count `limit - len(results)` is positive whenever
the division is reached, because the limit-reached disjunct short-circuits
otherwise, and when `limit < 0` the count is never reassigned. -/
theorem searchLoop_no_zero_division (server : Int → Int → List JobElement)
    (mr limit offset : Int) :
    ∀ (fuel : Nat) (count : Int) (results : List JobElement)
      (reqs : List (Int × Int)), 0 < count →
      isZeroDiv (searchLoop server mr limit offset fuel count results reqs) = false := by
  intro fuel
  induction fuel with
  | zero => intro count results reqs _; rfl
  | succ n ih =>
    intro count results reqs hpos
    simp only [searchLoop]
    set c' := if limit > -1 ∧ limit - (results.length : Int) < count then
        limit - (results.length : Int) else count with hc'
    set nd := extractNewData (server c' ((results.length : Int) + offset)) with hnd
    by_cases h1 : nd.isEmpty = true
    · rw [if_pos h1]; rfl
    · rw [if_neg h1]
      have hndpos : 0 < nd.length := by
        rcases Nat.eq_zero_or_pos nd.length with hz | hp
        · exact absurd (by rw [List.isEmpty_iff, ← List.length_eq_zero]; exact hz) h1
        · exact hp
      by_cases h2 : -1 < limit ∧ limit ≤ ((results ++ nd).length : Int)
      · rw [if_pos h2]; rfl
      · rw [if_neg h2]
        have hc'pos : 0 < c' := by
          rw [hc']
          split_ifs with hsh
          · have hlen : ((results ++ nd).length : Int)
                = (results.length : Int) + (nd.length : Int) := by
              rw [List.length_append]; push_cast; ring
            have hlt : ((results ++ nd).length : Int) < limit := by
              by_contra hge
              exact h2 ⟨hsh.1, by omega⟩
            omega
          · exact hpos
        rw [if_neg (by omega : ¬ c' = 0)]
        by_cases h3 : (ratioGE (results ++ nd).length c' mr
            || (server c' ((results.length : Int) + offset)).isEmpty) = true
        · rw [if_pos h3]; rfl
        · rw [if_neg h3]
          exact ih c' (results ++ nd) (reqs ++ [(c', (results.length : Int) + offset)])
            hc'pos

/-- C10: for every server behaviour, every integer `limit` (including zero
and negative values) and every offset, `search_jobs` never raises
`ZeroDivisionError` from the `len(results)/count` guard, given that the
platform-defined initial page size is positive (it is 49). -/
theorem search_jobs_no_zero_division (server : Int → Int → List JobElement)
    (maxCount maxRepeated limit offset : Int) (fuel : Nat) (h : 0 < maxCount) :
    isZeroDiv (search_jobs server maxCount maxRepeated limit offset fuel) = false :=
  searchLoop_no_zero_division server maxRepeated limit offset fuel maxCount [] [] h

/-- `processElement` only writes `job_id`, never the `$type` tag. -/
theorem processElement_dollarType (e : JobElement) :
    (processElement e).dollarType = e.dollarType := by
  unfold processElement
  cases h : e.trackingUrn with
  | none => rfl
  | some urn => rfl

/-- When every element of a page is job-typed, the `new_data` filter keeps
them all. -/
theorem extractNewData_length_of_jobs (l : List JobElement)
    (h : ∀ e ∈ l, e.dollarType = jobPostingType) :
    (extractNewData l).length = l.length := by
  unfold extractNewData
  rw [List.filter_eq_self.mpr, List.length_map]
  intro e he
  rcases List.mem_map.mp he with ⟨a, ha, rfl⟩
  rw [beq_iff_eq, processElement_dollarType]
  exact h a ha

/-- C2: with `limit = 5` against a remote endpoint whose pages hold
exactly two job-typed entries (capped at the requested `count`),
`search_jobs` issues requests with `count` 5, 3 and 1 at `start` 0, 2 and
4, returns exactly five job records, and the final page request's `count`
equals the limit minus the four results accumulated so far. -/
theorem search_jobs_limit_five_pagination (server : Int → Int → List JobElement)
    (maxCount maxRepeated : Int) (fuel : Nat)
    (hmc : 5 < maxCount) (hmr : 2 ≤ maxRepeated) (hfuel : 3 ≤ fuel)
    (hlen : ∀ c s : Int, (server c s).length = min 2 c.toNat)
    (htype : ∀ c s : Int, ∀ e ∈ server c s, e.dollarType = jobPostingType) :
    search_jobs server maxCount maxRepeated 5 0 fuel
      = LoopResult.done
          (extractNewData (server 5 0) ++ extractNewData (server 3 2)
            ++ extractNewData (server 1 4))
          [(5, 0), (3, 2), (1, 4)]
    ∧ (extractNewData (server 5 0) ++ extractNewData (server 3 2)
        ++ extractNewData (server 1 4)).length = 5
    ∧ ([(5, 0), (3, 2), (1, 4)] : List (Int × Int)).getLast? = some (5 - 4, 4) := by
  have h1 : (extractNewData (server 5 0)).length = 2 := by
    rw [extractNewData_length_of_jobs _ (htype 5 0), hlen 5 0]; decide
  have h2 : (extractNewData (server 3 2)).length = 2 := by
    rw [extractNewData_length_of_jobs _ (htype 3 2), hlen 3 2]; decide
  have h3 : (extractNewData (server 1 4)).length = 1 := by
    rw [extractNewData_length_of_jobs _ (htype 1 4), hlen 1 4]; decide
  have hs1 : (server 5 0).isEmpty = false :=
    isEmpty_false_of_length_ne _ (by rw [hlen 5 0]; decide)
  have hs2 : (server 3 2).isEmpty = false :=
    isEmpty_false_of_length_ne _ (by rw [hlen 3 2]; decide)
  have hnd1 : (extractNewData (server 5 0)).isEmpty = false :=
    isEmpty_false_of_length_ne _ (by rw [h1]; decide)
  have hnd2 : (extractNewData (server 3 2)).isEmpty = false :=
    isEmpty_false_of_length_ne _ (by rw [h2]; decide)
  have hnd3 : (extractNewData (server 1 4)).isEmpty = false :=
    isEmpty_false_of_length_ne _ (by rw [h3]; decide)
  have hr1 : ratioGE 2 5 maxRepeated = false := by
    unfold ratioGE
    rw [if_pos (by norm_num : (0:Int) < 5)]
    exact decide_eq_false (by intro h; omega)
  have hr2 : ratioGE 4 3 maxRepeated = false := by
    unfold ratioGE
    rw [if_pos (by norm_num : (0:Int) < 3)]
    exact decide_eq_false (by intro h; omega)
  refine ⟨?_, ?_, rfl⟩
  · unfold search_jobs
    obtain ⟨k, hk⟩ := Nat.exists_eq_add_of_le hfuel
    have hfe : fuel = Nat.succ (Nat.succ (Nat.succ k)) := by omega
    rw [hfe]
    norm_num [searchLoop, h1, h2, h3, hnd1, hnd2, hnd3, hs1, hs2, hr1, hr2, hmc,
      List.length_append, List.length_nil, List.nil_append]
  · rw [List.length_append, List.length_append, h1, h2, h3]

/-- A concrete endpoint for the C2 witness: an unbounded corpus serving two
job-typed elements per page, truncated to the requested `count`. -/
def c2Server (c s : Int) : List JobElement :=
  List.take c.toNat
    [{ trackingUrn := some ("urn:li:jobPosting:" ++ toString s),
       dollarType := jobPostingType },
     { trackingUrn := some ("urn:li:jobPosting:" ++ toString (s + 1)),
       dollarType := jobPostingType }]

/-- Witness for C2 at the platform constants 49 and 200, against a concrete
server returning two job-typed elements per page capped at `count`. -/
theorem search_jobs_limit_five_pagination_witness :
    search_jobs c2Server 49 200 5 0 3
      = LoopResult.done
          (extractNewData (c2Server 5 0) ++ extractNewData (c2Server 3 2)
            ++ extractNewData (c2Server 1 4))
          [(5, 0), (3, 2), (1, 4)]
    ∧ (extractNewData (c2Server 5 0) ++ extractNewData (c2Server 3 2)
        ++ extractNewData (c2Server 1 4)).length = 5
    ∧ ([(5, 0), (3, 2), (1, 4)] : List (Int × Int)).getLast? = some (5 - 4, 4) :=
  search_jobs_limit_five_pagination c2Server 49 200 3
    (by decide) (by decide) (by decide)
    (fun c s => by simp [c2Server, List.length_take, Nat.min_comm])
    (fun c s e he => by
      have hm := List.mem_of_mem_take he
      simp only [c2Server, List.mem_cons, List.mem_singleton] at hm
      rcases hm with h | h | h
      · rw [h]
      · rw [h]
      · cases h)

/-- Witness for C10 at the platform constant 49, `limit = 0`, and a server
that always returns one job-typed element. -/
theorem search_jobs_no_zero_division_witness :
    isZeroDiv (search_jobs
      (fun _ _ => [{ trackingUrn := some "urn:li:jobPosting:1",
                     dollarType := jobPostingType }])
      49 200 0 0 2) = false :=
  search_jobs_no_zero_division
    (fun _ _ => [{ trackingUrn := some "urn:li:jobPosting:1",
                   dollarType := jobPostingType }])
    49 200 0 0 2 (by decide)

end LinkedInAuto
